import Mathlib

/-!
Verification of the coverage aggregation and trend-tracking logic of
`backend/app/core/test_coverage_analyzer.py` (class `TestCoverageAnalyzer`).

Python floats are modelled as rationals, Python ints as integers (or
naturals where the source value is a length), Python exceptions as
`Except`/`Option` values threaded explicitly, and the trend-history file
as an explicit state value passed in and returned.
-/

namespace CoverageAnalyzer

/-- Round a rational to the nearest integer, ties to even, as Python's
built-in `round` does on exact values. -/
def roundHalfEven (q : ℚ) : ℤ :=
  let f : ℤ := ⌊q⌋
  let r : ℚ := q - f
  if r < 1/2 then f
  else if r > 1/2 then f + 1
  else if f % 2 = 0 then f else f + 1

/-- Python's `round(x, 2)`: round to two decimal places, ties to even. -/
def round2 (q : ℚ) : ℚ :=
  (roundHalfEven (q * 100) : ℚ) / 100

/-- A Python `datetime.datetime` value (naive, as produced by
`datetime.now()`). -/
structure PyDatetime where
  year : ℕ
  month : ℕ
  day : ℕ
  hour : ℕ
  minute : ℕ
  second : ℕ
  microsecond : ℕ
deriving DecidableEq

/-- Decimal digits of a natural number, most significant first. -/
def natDigits (n : ℕ) : List Char :=
  (Nat.toDigits 10 n)

/-- Left-pad a digit string with the character 0 up to width `w`,
as Python's zero-padded formatting of datetime components does. -/
def padDigits (w : ℕ) (n : ℕ) : List Char :=
  List.replicate (w - (natDigits n).length) '0' ++ natDigits n

/-- Python's `str(datetime)`: `datetime.__str__` is `isoformat(sep=' ')`,
i.e. date and time separated by a SPACE, with `.ffffff` appended only when
the microsecond field is nonzero. This is the encoding `json.dump`'s
`default=str` applies to `datetime` values in `generate_json_report`. -/
def pyStrOfDatetime (d : PyDatetime) : List Char :=
  padDigits 4 d.year ++ ['-'] ++ padDigits 2 d.month ++ ['-'] ++ padDigits 2 d.day
    ++ [' '] ++ padDigits 2 d.hour ++ [':'] ++ padDigits 2 d.minute
    ++ [':'] ++ padDigits 2 d.second
    ++ (if d.microsecond = 0 then [] else ['.'] ++ padDigits 6 d.microsecond)

/-- The `CoverageMetrics` pydantic model. `covered_lines` is declared
`int` in the source and can in principle go negative, so it is `ℤ`. -/
structure CoverageMetrics where
  line_coverage : ℚ
  branch_coverage : ℚ
  function_coverage : ℚ
  total_lines : ℕ
  covered_lines : ℤ
  missing_lines : List ℕ
  excluded_lines : List ℕ
  timestamp : PyDatetime
deriving DecidableEq

/-- The `FileCoverage` pydantic model. -/
structure FileCoverage where
  filename : String
  metrics : CoverageMetrics
  complexity_score : Option ℚ
deriving DecidableEq

/-- One record of the persisted trend history
(the `data_point` dict built in `_save_trend_data`). -/
structure TrendPoint where
  timestamp : PyDatetime
  line_coverage : ℚ
  branch_coverage : ℚ
  total_lines : ℕ
  covered_lines : ℤ
deriving DecidableEq

/-- The `trends` object computed by `_calculate_trends`
(the nonempty case; the empty dict is modelled as `none`). -/
structure TrendResult where
  trend : String
  change_percentage : ℚ
  recent_average : ℚ
  previous_average : ℚ
deriving DecidableEq

/-- The full content of `trend_data.json`:
a history array plus a trends object. -/
structure TrendData where
  history : List TrendPoint
  trends : Option TrendResult
deriving DecidableEq

/-- The `CoverageReport` pydantic model. -/
structure CoverageReport where
  project_name : String
  total_metrics : CoverageMetrics
  file_coverage : List FileCoverage
  trend_data : Option TrendData
  generated_at : PyDatetime
deriving DecidableEq

/-- The mean `line_coverage` of a block of history points, as computed in
`_calculate_trends` (`sum(...) / len(...)`). -/
def meanLineCoverage (l : List TrendPoint) : ℚ :=
  (l.map TrendPoint.line_coverage).sum / l.length

/-- The Python slice `history[-5:]`: the last five entries
(all of them when fewer than five exist). -/
def recentBlock (history : List TrendPoint) : List TrendPoint :=
  history.drop (history.length - 5)

/-- The Python expression
`history[-10:-5] if len(history) >= 10 else history[:-5]`:
the five entries preceding the last five when at least ten exist,
otherwise every entry before the last five. -/
def olderBlock (history : List TrendPoint) : List TrendPoint :=
  if 10 ≤ history.length then (history.drop (history.length - 10)).take 5
  else history.take (history.length - 5)

/-- Source `_calculate_trends`: classify the coverage trend from the history.
Returns `none` for the Python empty dict. -/
def calculateTrends (history : List TrendPoint) : Option TrendResult :=
  if history.length < 2 then none
  else
    let recent := recentBlock history
    let older := olderBlock history
    if older = [] then none
    else
      let recentAvg := meanLineCoverage recent
      let olderAvg := meanLineCoverage older
      let trend : String :=
        if recentAvg > olderAvg then ("improving")
        else if recentAvg < olderAvg then ("declining")
        else ("stable")
      some {
        trend := trend
        change_percentage := round2 (recentAvg - olderAvg)
        recent_average := round2 recentAvg
        previous_average := round2 olderAvg
      }

/-- The raw per-file data `coverage.py` hands back through `analysis2`:
the set of statement lines, the set of missing (uncovered) lines, the
excluded lines, plus the file name and its readable text content
(`none` when the file cannot be read). -/
structure FileAnalysis where
  filename : String
  statements : Finset ℕ
  missing : Finset ℕ
  excluded : List ℕ
  content : Option (List Char)
deriving DecidableEq

/-- Source `_calculate_total_metrics`: aggregate across all measured files.
`branchPercent` models the optional project branch-coverage percentage
(`branch_stats.get('percent_covered', 0)` when the library reports one;
the `except: pass` / missing case is `none`, leaving 0). -/
def calculateTotalMetrics (files : List FileAnalysis) (branchPercent : Option ℚ)
    (now : PyDatetime) : CoverageMetrics :=
  let total : ℕ := (files.map (fun f => f.statements.card)).sum
  let covered : ℤ := (files.map (fun f => (f.statements.card : ℤ) - f.missing.card)).sum
  let lineCov : ℚ := if 0 < total then (covered : ℚ) / (total : ℚ) * 100 else 0
  let branchCov : ℚ := branchPercent.getD 0
  { line_coverage := round2 lineCov
    branch_coverage := round2 branchCov
    function_coverage := 0
    total_lines := total
    covered_lines := covered
    missing_lines := files.flatMap (fun f => f.missing.sort (· ≤ ·))
    excluded_lines := files.flatMap (fun f => f.excluded)
    timestamp := now }

/-- A check that `pat` occurs at the head of `s`. -/
def begMatch : List Char → List Char → Bool
  | [], _ => true
  | _ :: _, [] => false
  | p :: ps, c :: cs => p = c && begMatch ps cs

/-- Fueled scan behind `countSub`; the fuel is the string length, which
bounds the number of scan steps since every step consumes a character. -/
def countSubAux : ℕ → List Char → List Char → ℕ
  | 0, _, _ => 0
  | _ + 1, [], _ => 0
  | n + 1, c :: rest, pat =>
    if begMatch pat (c :: rest) then
      1 + countSubAux n (rest.drop (pat.length - 1)) pat
    else
      countSubAux n rest pat

/-- Python's `line.count(indicator)`: the number of non-overlapping
occurrences of `pat` in `s`, scanning left to right and skipping past
each match. -/
def countSub (s pat : List Char) : ℕ := countSubAux s.length s pat

/-- Python's `content.split('\n')`: split on every newline character;
the empty string yields the single-element list of one empty line, so the
result is never empty. -/
def splitNL : List Char → List (List Char)
  | [] => [[]]
  | c :: rest =>
    if c = '\n' then [] :: splitNL rest
    else
      match splitNL rest with
      | [] => [[c]]
      | l :: ls => (c :: l) :: ls

/-- The fixed `complexity_indicators` keyword list. -/
def complexityIndicators : List (List Char) :=
  ["if ".toList, "elif ".toList, "else:".toList, "for ".toList, "while ".toList,
    "try:".toList, "except:".toList, "def ".toList, "class ".toList,
    "lambda ".toList, "with ".toList]

/-- Source `complexity_count`: the occurrence counts of all eleven keywords
summed over all lines of the file. -/
def complexityCount (cs : List Char) : ℕ :=
  ((splitNL cs).map (fun line =>
    (complexityIndicators.map (fun k => countSub line k)).sum)).sum

/-- The number of lines `len(lines)` after splitting on newlines. -/
def numLines (cs : List Char) : ℕ := (splitNL cs).length

/-- Source `_calculate_complexity_score`: keyword density per line, as a
percentage rounded to two decimals; 0 for an unreadable file (`none`,
the swallowed `except`) and 0 when the line list is empty. -/
def calculateComplexityScore (content : Option (List Char)) : ℚ :=
  match content with
  | none => 0
  | some cs =>
    if splitNL cs = [] then 0
    else round2 ((complexityCount cs : ℚ) / (numLines cs : ℚ) * 100)

/-- Source `_analyze_file_coverage`: per-file metrics; file-level
`branch_coverage` and `function_coverage` are hard-coded 0, and the
complexity score is attached. (The per-file `except` that skips a file
whose analysis raises is not reachable here because the inputs are the
already-extracted analysis data.) -/
def analyzeFileCoverage (files : List FileAnalysis) (now : PyDatetime) :
    List FileCoverage :=
  files.map fun f =>
    let total : ℕ := f.statements.card
    let covered : ℤ := (total : ℤ) - f.missing.card
    let lineCov : ℚ := if 0 < total then (covered : ℚ) / (total : ℚ) * 100 else 0
    { filename := f.filename
      metrics :=
        { line_coverage := round2 lineCov
          branch_coverage := 0
          function_coverage := 0
          total_lines := total
          covered_lines := covered
          missing_lines := f.missing.sort (· ≤ ·)
          excluded_lines := f.excluded
          timestamp := now }
      complexity_score := some (calculateComplexityScore f.content) }

/-- Source `_load_trend_data`: the parsed content of `trend_data.json`, or the
default of an empty history and empty trends when the file is absent or
unreadable (that failure is swallowed). -/
def loadTrendData (stored : Option TrendData) : TrendData :=
  stored.getD { history := [], trends := none }

/-- The `data_point` summary record `_save_trend_data` builds from the
current report. -/
def mkDataPoint (report : CoverageReport) : TrendPoint :=
  { timestamp := report.generated_at
    line_coverage := report.total_metrics.line_coverage
    branch_coverage := report.total_metrics.branch_coverage
    total_lines := report.total_metrics.total_lines
    covered_lines := report.total_metrics.covered_lines }

/-- The history update inside `_save_trend_data`: append the new point,
then keep only the last 100 entries (`history[-100:]`) when the length
exceeds 100. -/
def saveTrendHistory (history : List TrendPoint) (p : TrendPoint) : List TrendPoint :=
  let h := history ++ [p]
  if 100 < h.length then h.drop (h.length - 100) else h

/-- Source `_save_trend_data`: reload the stored trend data, append the current
report's data point (with eviction), recompute the trends object, and
write the whole structure back. The returned value is the new persistent
state (the successful-write path; a write failure is only logged). -/
def saveTrendData (stored : Option TrendData) (report : CoverageReport) : TrendData :=
  let td := loadTrendData stored
  let h := saveTrendHistory td.history (mkDataPoint report)
  { history := h, trends := calculateTrends h }

/-- Source `analyze_coverage`: build the report — total metrics, per-file
metrics, and the trend data loaded from storage — and only then persist
the current run's data point. Returns the report together with the new
persistent trend state. All `datetime.now()` readings during the run are
modelled by the single parameter `now`. -/
def analyzeCoverage (stored : Option TrendData) (files : List FileAnalysis)
    (branchPercent : Option ℚ) (projectName : String) (now : PyDatetime) :
    CoverageReport × TrendData :=
  let totalMetrics := calculateTotalMetrics files branchPercent now
  let fileCov := analyzeFileCoverage files now
  let trendData := loadTrendData stored
  let report : CoverageReport :=
    { project_name := projectName
      total_metrics := totalMetrics
      file_coverage := fileCov
      trend_data := some trendData
      generated_at := now }
  (report, saveTrendData stored report)

/-- The body of `run_tests_with_coverage` modelled as an `Except`
computation: start coverage, run the test subprocess (its outcome is an
exception or a return code), stop and save coverage, and report whether
the return code is 0. -/
def runTestsBody (startRes : Except String Unit) (runRes : Except String ℤ)
    (stopRes saveRes : Except String Unit) : Except String Bool := do
  startRes
  let rc ← runRes
  stopRes
  saveRes
  pure (rc == 0)

/-- Source `run_tests_with_coverage`: the body's boolean on success; any
exception is caught (and logged) and the call returns `false`. -/
def runTestsWithCoverage (startRes : Except String Unit) (runRes : Except String ℤ)
    (stopRes saveRes : Except String Unit) : Bool :=
  match runTestsBody startRes runRes stopRes saveRes with
  | .ok b => b
  | .error _ => false

/-- Python's `datetime.isoformat()` (default separator): like `str` but
with the capital letter T between date and time. `_save_trend_data` uses
this for the `timestamp` field of a history record. -/
def isoformatOfDatetime (d : PyDatetime) : List Char :=
  padDigits 4 d.year ++ ['-'] ++ padDigits 2 d.month ++ ['-'] ++ padDigits 2 d.day
    ++ ['T'] ++ padDigits 2 d.hour ++ [':'] ++ padDigits 2 d.minute
    ++ [':'] ++ padDigits 2 d.second
    ++ (if d.microsecond = 0 then [] else ['.'] ++ padDigits 6 d.microsecond)

/-- The JSON value written by `json.dump` (and read back by
`json.load`): `json.load` applied to the text `json.dump` writes yields
this same tree, so round-trip facts are stated on it directly. -/
inductive Json where
  | null
  | bool (b : Bool)
  | num (q : ℚ)
  | str (s : List Char)
  | arr (elems : List Json)
  | obj (members : List (String × Json))

/-- Object member access on a JSON value. -/
def jsonGet : Json → String → Option Json
  | Json.obj ms, k => ms.lookup k
  | _, _ => none

/-- Nested object member access. -/
def jsonGet2 (j : Json) (k1 k2 : String) : Option Json :=
  match jsonGet j k1 with
  | some j' => jsonGet j' k2
  | none => none

/-- Extract a JSON number. -/
def jsonNum : Option Json → Option ℚ
  | some (Json.num q) => some q
  | _ => none

/-- The JSON encoding of a `CoverageMetrics` value under
`json.dump(report.dict(), default=str)`: pydantic's `.dict()` keeps the
`datetime` object, and `default=str` then encodes it as `str(datetime)`. -/
def metricsToJson (m : CoverageMetrics) : Json :=
  Json.obj [
    ("line_coverage", Json.num m.line_coverage),
    ("branch_coverage", Json.num m.branch_coverage),
    ("function_coverage", Json.num m.function_coverage),
    ("total_lines", Json.num m.total_lines),
    ("covered_lines", Json.num m.covered_lines),
    ("missing_lines", Json.arr (m.missing_lines.map (fun n => Json.num n))),
    ("excluded_lines", Json.arr (m.excluded_lines.map (fun n => Json.num n))),
    ("timestamp", Json.str (pyStrOfDatetime m.timestamp))
  ]

/-- The JSON encoding of a `FileCoverage` value. -/
def fileCoverageToJson (fc : FileCoverage) : Json :=
  Json.obj [
    ("filename", Json.str fc.filename.toList),
    ("metrics", metricsToJson fc.metrics),
    ("complexity_score", match fc.complexity_score with
      | some q => Json.num q
      | none => Json.null)
  ]

/-- The JSON encoding of a history record: its timestamp was stored as
an `isoformat()` string (with the T separator) by `_save_trend_data`. -/
def trendPointToJson (p : TrendPoint) : Json :=
  Json.obj [
    ("timestamp", Json.str (isoformatOfDatetime p.timestamp)),
    ("line_coverage", Json.num p.line_coverage),
    ("branch_coverage", Json.num p.branch_coverage),
    ("total_lines", Json.num p.total_lines),
    ("covered_lines", Json.num p.covered_lines)
  ]

/-- The JSON encoding of the trends object (the empty dict for `none`). -/
def trendResultToJson : Option TrendResult → Json
  | none => Json.obj []
  | some t => Json.obj [
      ("trend", Json.str t.trend.toList),
      ("change_percentage", Json.num t.change_percentage),
      ("recent_average", Json.num t.recent_average),
      ("previous_average", Json.num t.previous_average)
    ]

/-- The JSON encoding of the trend-data structure. -/
def trendDataToJson (td : TrendData) : Json :=
  Json.obj [
    ("history", Json.arr (td.history.map trendPointToJson)),
    ("trends", trendResultToJson td.trends)
  ]

/-- The JSON encoding of a full `CoverageReport` under
`json.dump(report.dict(), indent=2, default=str)`. -/
def reportToJson (r : CoverageReport) : Json :=
  Json.obj [
    ("project_name", Json.str r.project_name.toList),
    ("total_metrics", metricsToJson r.total_metrics),
    ("file_coverage", Json.arr (r.file_coverage.map fileCoverageToJson)),
    ("trend_data", match r.trend_data with
      | some td => trendDataToJson td
      | none => Json.null),
    ("generated_at", Json.str (pyStrOfDatetime r.generated_at))
  ]

/-- Python `Path(output_path).absolute()`: the path itself when already
absolute, otherwise the working directory joined with it. -/
def pathAbsolute (cwd p : String) : String :=
  if p.startsWith ("/") then p else cwd ++ "/" ++ p

/-- Source `generate_json_report` (successful-write path): returns the absolute
output path, and the JSON value it writes to that file. -/
def generateJsonReport (cwd : String) (report : CoverageReport)
    (outputPath : String) : String × Json :=
  (pathAbsolute cwd outputPath, reportToJson report)

/-- The dictionary `get_coverage_summary` returns. -/
structure CoverageSummary where
  line_coverage : ℚ
  branch_coverage : ℚ
  total_files : ℕ
  files_with_low_coverage : ℕ
  trend : String
  generated_at : PyDatetime
deriving DecidableEq

/-- Source `get_coverage_summary`: re-run the full analysis (which also
persists a new trend data point) and reduce the report to a summary.
Returns the summary together with the new persistent trend state. -/
def getCoverageSummary (stored : Option TrendData) (files : List FileAnalysis)
    (branchPercent : Option ℚ) (projectName : String) (now : PyDatetime) :
    CoverageSummary × TrendData :=
  let out := analyzeCoverage stored files branchPercent projectName now
  let report := out.1
  ({ line_coverage := report.total_metrics.line_coverage
     branch_coverage := report.total_metrics.branch_coverage
     total_files := report.file_coverage.length
     files_with_low_coverage :=
       (report.file_coverage.filter (fun f => f.metrics.line_coverage < 80)).length
     trend :=
       match report.trend_data with
       | some td =>
         match td.trends with
         | some t => t.trend
         | none => ("unknown")
       | none => ("unknown")
     generated_at := report.generated_at }, out.2)

def ptA : TrendPoint := ⟨⟨2024, 1, 1, 0, 0, 0, 0⟩, 50, 0, 0, 0⟩

def ptB : TrendPoint := ⟨⟨2024, 1, 2, 0, 0, 0, 0⟩, 60, 0, 0, 0⟩

def histW6 : List TrendPoint := [ptA, ptB, ptA, ptB, ptA, ptB]

def mkPt (lc : ℚ) : TrendPoint := ⟨⟨2024, 1, 1, 0, 0, 0, 0⟩, lc, 0, 0, 0⟩

/-- The ten-point history of the spec's concrete trend scenario, with
line-coverage values 70 through 88 in steps of 2. -/
def histC4 : List TrendPoint :=
  [mkPt 70, mkPt 72, mkPt 74, mkPt 76, mkPt 78, mkPt 80, mkPt 82, mkPt 84, mkPt 86, mkPt 88]

/-- The per-metric-set invariant of the spec: covered lines never exceed
total lines, and the line-coverage percentage is the rounded ratio (or 0
for an empty line count). -/
def metricsInv (m : CoverageMetrics) : Prop :=
  m.covered_lines ≤ (m.total_lines : ℤ)
  ∧ (0 < m.total_lines →
      m.line_coverage = round2 ((m.covered_lines : ℚ) / (m.total_lines : ℚ) * 100))
  ∧ (m.total_lines = 0 → m.line_coverage = 0)

def dtW : PyDatetime := ⟨2024, 1, 1, 0, 0, 0, 0⟩

/-- A one-file project: three statements, one of them missing. -/
def filesW : List FileAnalysis :=
  [{ filename := "app.py", statements := {1, 2, 3}, missing := {2},
     excluded := [], content := none }]

/-- Following the spec's words ("encoding timestamps as ISO-8601
strings"): an ISO 8601 combined date-and-time representation places the
capital letter T between the date part and the time part, so containing
a T separator is a necessary condition for a combined date-and-time
string to be ISO 8601. -/
def specIso8601DateTimeSep (s : List Char) : Prop := 'T' ∈ s

def dtC8 : PyDatetime := ⟨2024, 3, 5, 10, 20, 30, 0⟩

def reportC8 : CoverageReport :=
  { project_name := "demo"
    total_metrics :=
      { line_coverage := 70, branch_coverage := 0, function_coverage := 0,
        total_lines := 10, covered_lines := 7, missing_lines := [4, 5, 9],
        excluded_lines := [], timestamp := dtC8 }
    file_coverage := []
    trend_data := none
    generated_at := dtC8 }

theorem round2_zero : round2 0 = 0 := by
  unfold round2 roundHalfEven
  norm_num

theorem saveTrendHistory_eq_drop (h : List TrendPoint) (p : TrendPoint) :
    saveTrendHistory h p = h.drop (h.length + 1 - 100) ++ [p] := by
  unfold saveTrendHistory
  simp only [List.length_append, List.length_cons, List.length_nil]
  split
  · rw [List.drop_append_of_le_length (by omega)]
  · rw [Nat.sub_eq_zero_of_le (by omega), List.drop_zero]

theorem coveredSum_le (files : List FileAnalysis) :
    (files.map (fun f => (f.statements.card : ℤ) - f.missing.card)).sum
      ≤ (((files.map (fun f => f.statements.card)).sum : ℕ) : ℤ) := by
  have h1 : (files.map (fun f => (f.statements.card : ℤ) - f.missing.card)).sum
      ≤ (files.map (fun f => (f.statements.card : ℤ))).sum :=
    List.sum_le_sum (fun f _ => by omega)
  refine le_trans h1 (le_of_eq ?_)
  push_cast
  rw [List.map_map]
  rfl

theorem splitNL_ne_nil (cs : List Char) : splitNL cs ≠ [] := by
  cases cs with
  | nil => simp [splitNL]
  | cons c rest =>
    simp only [splitNL]
    split
    · simp
    · split <;> simp

/-- C1: under the precondition that each file's missing set is contained
in its statement set, both the project aggregate of
`_calculate_total_metrics` and every per-file metric set of
`_analyze_file_coverage` satisfy the invariant: covered lines do not
exceed total lines, and the line coverage is the two-decimal rounding of
covered/total*100 (0 when the total is 0). -/
theorem claim_C1_metrics_invariant (files : List FileAnalysis) (bp : Option ℚ)
    (now : PyDatetime) (hsub : ∀ f ∈ files, f.missing ⊆ f.statements) :
    metricsInv (calculateTotalMetrics files bp now)
    ∧ ∀ fc ∈ analyzeFileCoverage files now, metricsInv fc.metrics := by
  constructor
  · refine ⟨?_, ?_, ?_⟩
    · simp only [calculateTotalMetrics]
      exact coveredSum_le files
    · intro hpos
      simp only [calculateTotalMetrics] at hpos ⊢
      rw [if_pos hpos]
    · intro hzero
      simp only [calculateTotalMetrics] at hzero ⊢
      rw [if_neg (by omega)]
      exact round2_zero
  · intro fc hfc
    simp only [analyzeFileCoverage, List.mem_map] at hfc
    obtain ⟨f, hf, rfl⟩ := hfc
    refine ⟨by simp, ?_, ?_⟩
    · intro hpos
      simp only at hpos ⊢
      rw [if_pos hpos]
    · intro hzero
      simp only at hzero ⊢
      rw [if_neg (by omega)]
      exact round2_zero

theorem claim_C1_witness :
    (∀ f ∈ filesW, f.missing ⊆ f.statements)
    ∧ metricsInv (calculateTotalMetrics filesW none dtW)
    ∧ ∀ fc ∈ analyzeFileCoverage filesW dtW, metricsInv fc.metrics := by
  refine ⟨?_, (claim_C1_metrics_invariant filesW none dtW ?_).1,
    (claim_C1_metrics_invariant filesW none dtW ?_).2⟩ <;> decide

/-- C2: with at least 2 history entries and a nonempty older block,
`_calculate_trends` reports the rounded means of the recent block (the
last five entries) and the older block (the five entries preceding those
when at least ten exist, otherwise all entries before the last five),
classifies the trend as improving/declining/stable by comparing the two
means, and reports their rounded difference as the change percentage. -/
theorem claim_C2_trend_classification (h : List TrendPoint)
    (h2 : 2 ≤ h.length) (hne : olderBlock h ≠ []) :
    calculateTrends h = some
      { trend :=
          if meanLineCoverage (recentBlock h) > meanLineCoverage (olderBlock h)
          then ("improving")
          else if meanLineCoverage (recentBlock h) < meanLineCoverage (olderBlock h)
          then ("declining")
          else ("stable")
        change_percentage :=
          round2 (meanLineCoverage (recentBlock h) - meanLineCoverage (olderBlock h))
        recent_average := round2 (meanLineCoverage (recentBlock h))
        previous_average := round2 (meanLineCoverage (olderBlock h)) }
    ∧ recentBlock h = h.drop (h.length - 5)
    ∧ (10 ≤ h.length → olderBlock h = (h.drop (h.length - 10)).take 5)
    ∧ (h.length < 10 → olderBlock h = h.take (h.length - 5)) := by
  refine ⟨?_, rfl, ?_, ?_⟩
  · unfold calculateTrends
    rw [if_neg (by omega), if_neg hne]
  · intro h10
    unfold olderBlock
    rw [if_pos h10]
  · intro h10
    unfold olderBlock
    rw [if_neg (by omega)]

theorem claim_C2_witness :
    2 ≤ histW6.length ∧ olderBlock histW6 ≠ []
    ∧ calculateTrends histW6 = some
      { trend :=
          if meanLineCoverage (recentBlock histW6) > meanLineCoverage (olderBlock histW6)
          then ("improving")
          else if meanLineCoverage (recentBlock histW6) < meanLineCoverage (olderBlock histW6)
          then ("declining")
          else ("stable")
        change_percentage :=
          round2 (meanLineCoverage (recentBlock histW6) - meanLineCoverage (olderBlock histW6))
        recent_average := round2 (meanLineCoverage (recentBlock histW6))
        previous_average := round2 (meanLineCoverage (olderBlock histW6)) } := by
  refine ⟨?_, ?_, (claim_C2_trend_classification histW6 ?_ ?_).1⟩ <;> decide

/-- C3: `_save_trend_data` appends the new record at the end of the
history, keeps at most the 100 most recent entries in insertion order
(dropping the oldest first), and after appending to a history of length
100 exactly 100 entries remain: the 100 most recent. -/
theorem claim_C3_history_eviction (h : List TrendPoint) (p : TrendPoint) :
    saveTrendHistory h p = h.drop (h.length + 1 - 100) ++ [p]
    ∧ (saveTrendHistory h p).length = min (h.length + 1) 100
    ∧ (h.length = 100 →
        (saveTrendHistory h p).length = 100 ∧ saveTrendHistory h p = h.drop 1 ++ [p]) := by
  refine ⟨saveTrendHistory_eq_drop h p, ?_, ?_⟩
  · rw [saveTrendHistory_eq_drop h p]
    simp [List.length_drop]
    omega
  · intro h100
    constructor
    · rw [saveTrendHistory_eq_drop h p]
      simp [List.length_drop, h100]
    · rw [saveTrendHistory_eq_drop h p, h100]

theorem claim_C3_witness :
    (List.replicate 100 ptA).length = 100
    ∧ ((saveTrendHistory (List.replicate 100 ptA) ptB).length = 100
        ∧ saveTrendHistory (List.replicate 100 ptA) ptB
            = (List.replicate 100 ptA).drop 1 ++ [ptB]) :=
  ⟨by simp, (claim_C3_history_eviction _ _).2.2 (by simp)⟩

/-- C4 counterexample: on that ten-point history `_calculate_trends`
does not produce an older mean of 76 with change percentage 8: the older
block is the first five values 70..78, whose mean is 74, so the change
is 10. -/
theorem claim_C4_counterexample :
    calculateTrends histC4 ≠ some
      { trend := "improving", change_percentage := 8,
        recent_average := 84, previous_average := 76 } := by
  intro hc
  have heq : calculateTrends histC4 = some
      { trend := "improving", change_percentage := 10,
        recent_average := 84, previous_average := 74 } := by
    simp [calculateTrends, recentBlock, olderBlock, meanLineCoverage, round2,
      roundHalfEven, histC4, mkPt]
    norm_num
  rw [heq] at hc
  have h3 := congrArg TrendResult.change_percentage (Option.some.inj hc)
  norm_num at h3

/-- C4 (amended): on the ten-point history 70,72,...,88 the recent block
is the last five values with mean 84, the older block is the first five
values with mean 74, the trend is improving and the change percentage
is 10. -/
theorem claim_C4_concrete_trend :
    calculateTrends histC4 = some
      { trend := "improving", change_percentage := 10,
        recent_average := 84, previous_average := 74 }
    ∧ meanLineCoverage (recentBlock histC4) = 84
    ∧ meanLineCoverage (olderBlock histC4) = 74 := by
  refine ⟨?_, ?_, ?_⟩ <;>
    · simp [calculateTrends, recentBlock, olderBlock, meanLineCoverage, round2,
        roundHalfEven, histC4, mkPt]
      norm_num

/-- C5: `_calculate_trends` yields the empty result both for histories
with fewer than 2 entries and for histories of 2 to 5 entries, where the
older block (all entries before the most recent 5) is empty. -/
theorem claim_C5_trend_empty (h : List TrendPoint) :
    (h.length < 2 → calculateTrends h = none)
    ∧ (2 ≤ h.length → h.length ≤ 5 → calculateTrends h = none) := by
  constructor
  · intro hlt
    unfold calculateTrends
    rw [if_pos hlt]
  · intro h2 h5
    unfold calculateTrends
    rw [if_neg (by omega)]
    have hold : olderBlock h = [] := by
      unfold olderBlock
      rw [if_neg (by omega), Nat.sub_eq_zero_of_le h5, List.take_zero]
    simp [hold]

theorem claim_C5_witness :
    ([ptA].length < 2 ∧ calculateTrends [ptA] = none)
    ∧ (2 ≤ [ptA, ptB, ptA].length ∧ [ptA, ptB, ptA].length ≤ 5
        ∧ calculateTrends [ptA, ptB, ptA] = none) := by
  refine ⟨⟨?_, (claim_C5_trend_empty [ptA]).1 ?_⟩, ?_, ?_,
    (claim_C5_trend_empty [ptA, ptB, ptA]).2 ?_ ?_⟩ <;> decide

/-- C6: `run_tests_with_coverage` returns `true` exactly when every step
succeeds and the test subprocess exits with return code 0, and any
exception anywhere in the body is caught and surfaced as `false` — the
call never propagates an exception (it is a total boolean function). -/
theorem claim_C6_run_tests (startRes : Except String Unit) (runRes : Except String ℤ)
    (stopRes saveRes : Except String Unit) :
    (runTestsWithCoverage startRes runRes stopRes saveRes = true ↔
      (startRes = Except.ok () ∧ runRes = Except.ok 0
        ∧ stopRes = Except.ok () ∧ saveRes = Except.ok ()))
    ∧ ((startRes.isOk = false ∨ runRes.isOk = false
        ∨ stopRes.isOk = false ∨ saveRes.isOk = false) →
        runTestsWithCoverage startRes runRes stopRes saveRes = false) := by
  cases startRes <;> cases runRes <;> cases stopRes <;> cases saveRes <;>
    simp_all [runTestsWithCoverage, runTestsBody, Except.isOk, Except.toBool,
      Except.bind, bind, pure, Except.pure, beq_iff_eq]

theorem claim_C6_witness :
    runTestsWithCoverage (Except.ok ()) (Except.ok 0) (Except.ok ()) (Except.ok ()) = true
    ∧ runTestsWithCoverage (Except.ok ()) (Except.error ("boom")) (Except.ok ())
        (Except.ok ()) = false :=
  ⟨(claim_C6_run_tests _ _ _ _).1.mpr ⟨rfl, rfl, rfl, rfl⟩,
    (claim_C6_run_tests _ _ _ _).2 (Or.inr (Or.inl rfl))⟩

/-- C7: `_calculate_complexity_score` on a readable file is exactly the
rounded keyword density — the summed substring counts of the eleven
keywords over all newline-split lines, divided by the number of lines,
times 100 — where the line list is never empty (the empty file has one
empty line and scores 0), and an unreadable file scores 0 with the read
failure swallowed. -/
theorem claim_C7_complexity_score (cs : List Char) :
    calculateComplexityScore (some cs)
        = round2 ((complexityCount cs : ℚ) / (numLines cs : ℚ) * 100)
    ∧ 0 < numLines cs
    ∧ calculateComplexityScore (some []) = 0
    ∧ calculateComplexityScore none = 0 := by
  refine ⟨?_, ?_, ?_, rfl⟩
  · simp only [calculateComplexityScore]
    rw [if_neg (splitNL_ne_nil cs)]
  · exact List.length_pos.mpr (splitNL_ne_nil cs)
  · norm_num [calculateComplexityScore, splitNL, complexityCount, numLines,
      complexityIndicators, countSub, countSubAux, round2, roundHalfEven]

/-- C8 counterexample: the report JSON written by `generate_json_report`
encodes `datetime` values with `default=str`, i.e. `str(datetime)`,
which separates date and time with a space — the concrete timestamp
string contains no T separator, so it is not an ISO-8601 combined
date-and-time string. -/
theorem claim_C8_counterexample :
    jsonGet2 (generateJsonReport ("/work") reportC8 ("out.json")).2
        ("total_metrics") ("timestamp")
      = some (Json.str (pyStrOfDatetime dtC8))
    ∧ ¬ specIso8601DateTimeSep (pyStrOfDatetime dtC8) :=
  ⟨rfl, by unfold specIso8601DateTimeSep; decide⟩

/-- C8 (amended): saving a report with `generate_json_report` writes a
JSON value whose numeric fields equal the report's — in particular
`total_lines` and `covered_lines` reload identically — with every
timestamp encoded as a string in Python's `str(datetime)` format (a
space, not the ISO-8601 T, between date and time), and the function
returns the absolute output path. -/
theorem claim_C8_json_report (cwd : String) (r : CoverageReport) (path : String) :
    (generateJsonReport cwd r path).1 = pathAbsolute cwd path
    ∧ jsonNum (jsonGet2 (generateJsonReport cwd r path).2 ("total_metrics") ("total_lines"))
        = some (r.total_metrics.total_lines : ℚ)
    ∧ jsonNum (jsonGet2 (generateJsonReport cwd r path).2 ("total_metrics") ("covered_lines"))
        = some (r.total_metrics.covered_lines : ℚ)
    ∧ jsonNum (jsonGet2 (generateJsonReport cwd r path).2 ("total_metrics") ("line_coverage"))
        = some r.total_metrics.line_coverage
    ∧ jsonGet2 (generateJsonReport cwd r path).2 ("total_metrics") ("timestamp")
        = some (Json.str (pyStrOfDatetime r.total_metrics.timestamp))
    ∧ jsonGet (generateJsonReport cwd r path).2 ("generated_at")
        = some (Json.str (pyStrOfDatetime r.generated_at))
    ∧ (∀ fc : FileCoverage, jsonGet2 (fileCoverageToJson fc) "metrics" ("timestamp")
        = some (Json.str (pyStrOfDatetime fc.metrics.timestamp)))
    ∧ jsonGet (generateJsonReport cwd r path).2 ("file_coverage")
        = some (Json.arr (r.file_coverage.map fileCoverageToJson)) :=
  ⟨rfl, rfl, rfl, rfl, rfl, rfl, fun _ => rfl, rfl⟩

/-- C9: the report returned by `analyze_coverage` carries the trend data
as loaded from storage before the run; the current run's data point is
appended only to the post-run persistent state, which ends with that
point — the returned snapshot never includes the run it describes. -/
theorem claim_C9_trend_snapshot_pre_state (stored : Option TrendData)
    (files : List FileAnalysis) (bp : Option ℚ) (pn : String) (now : PyDatetime) :
    (analyzeCoverage stored files bp pn now).1.trend_data = some (loadTrendData stored)
    ∧ (analyzeCoverage stored files bp pn now).2.history
        = saveTrendHistory (loadTrendData stored).history
            (mkDataPoint (analyzeCoverage stored files bp pn now).1)
    ∧ ((analyzeCoverage stored files bp pn now).2.history).getLast?
        = some (mkDataPoint (analyzeCoverage stored files bp pn now).1) := by
  refine ⟨rfl, rfl, ?_⟩
  show (saveTrendHistory (loadTrendData stored).history
    (mkDataPoint (analyzeCoverage stored files bp pn now).1)).getLast? = _
  rw [saveTrendHistory_eq_drop]
  exact List.getLast?_concat _

/-- C10: every successful `get_coverage_summary` call re-runs the full
analysis and therefore mutates the persistent trend state: exactly one
new data point is appended to the history (with eviction beyond 100) and
the stored trends are recomputed from the updated history. -/
theorem claim_C10_summary_mutates_state (stored : Option TrendData)
    (files : List FileAnalysis) (bp : Option ℚ) (pn : String) (now : PyDatetime) :
    (getCoverageSummary stored files bp pn now).2
        = (analyzeCoverage stored files bp pn now).2
    ∧ (getCoverageSummary stored files bp pn now).2.history
        = saveTrendHistory (loadTrendData stored).history
            (mkDataPoint (analyzeCoverage stored files bp pn now).1)
    ∧ ((loadTrendData stored).history.length < 100 →
        (getCoverageSummary stored files bp pn now).2.history
          = (loadTrendData stored).history
              ++ [mkDataPoint (analyzeCoverage stored files bp pn now).1])
    ∧ (getCoverageSummary stored files bp pn now).2.trends
        = calculateTrends ((getCoverageSummary stored files bp pn now).2.history) := by
  refine ⟨rfl, rfl, ?_, rfl⟩
  intro hlt
  show saveTrendHistory (loadTrendData stored).history
    (mkDataPoint (analyzeCoverage stored files bp pn now).1) = _
  unfold saveTrendHistory
  rw [if_neg (by simp; omega)]

theorem claim_C10_witness :
    (loadTrendData none).history.length < 100
    ∧ (getCoverageSummary none [] none ("proj") ptA.timestamp).2.history
        = (loadTrendData none).history
            ++ [mkDataPoint (analyzeCoverage none [] none ("proj") ptA.timestamp).1] :=
  ⟨by decide,
    (claim_C10_summary_mutates_state none [] none ("proj") ptA.timestamp).2.2.1 (by decide)⟩

end CoverageAnalyzer
